import Mathlib

/-!
Shallow embedding of the qonduit message-routing core (command/query/event
buses over type-erased handler registries).

Modelling conventions:
- A Rust runtime type identity (std::any::TypeId) is a natural number.
- All concrete message values share one payload carrier type V: a boxed
  `dyn Any` value is a pair of the runtime type identity and the payload
  (structure Boxed), and `downcast` checks the identity, exactly as Rust's
  `Box<dyn Any>::downcast` checks the stored TypeId against the target type.
- A Rust `Result<Response, Error>` for commands and queries is `Except V V`
  (both sides erased to the payload carrier); an event handler result
  `Result<(), Box<dyn Error + Send + Sync>>` is `Except V Unit`.
- A panic (`panic!` macro or `.expect` on a failed downcast) is modelled by
  the `Panics` outcome type carrying the panic message; panics propagate
  through every caller, as Rust unwinding does.
- Asynchronous handler calls complete sequentially in the source (each call
  is awaited before the next starts), so `handle` is a plain function.
- To express invocation counts and ordering, every function that performs a
  real handler call also returns the list of argument values passed to the
  underlying registered handler, in call order (ghost instrumentation of the
  unique call sites `self.handle(...)` in registry.rs and the dispatch loop
  in event.rs); the event dispatch loop additionally tags each record with
  the zero-based position of the handler in the registered list.
- The functions `resTid`, `qresTid` map a command/query type identity to the
  identity of its `Result<Response, Error>` type, and `ertid` is the identity
  of the uniform event-result type; `tn` models `std::any::type_name`.
-/

namespace Qonduit

/-- A runtime type identity: models std::any::TypeId. -/
abbrev TypeId := Nat

/-- Outcome of running Rust code that may panic: either a normal value or a
panic carrying the panic message. -/
inductive Panics (α : Type) where
  | panicked (msg : String)
  | ok (val : α)
deriving DecidableEq, Repr

/-- A boxed `dyn Any` value: the runtime type identity of the stored value
together with its payload. -/
structure Boxed (α : Type) where
  tid : TypeId
  val : α
deriving DecidableEq, Repr

/-- Models `Box<dyn Any>::downcast::<T>()`: succeeds exactly when the stored
runtime type identity equals the target identity. -/
def Boxed.downcast (b : Boxed α) (t : TypeId) : Option α :=
  if b.tid = t then some b.val else none

/-- Models Rust Debug formatting of a string slice, as produced by the
format specifier used in the missing-handler panic messages (the string is
wrapped in double quotes; Rust type paths contain no characters that Debug
would escape). -/
def rustDebugStr (s : String) : String :=
  "\"" ++ s ++ "\""

/-- Models `event.clone()` for an event value: the Clone bound on Event
produces an independent duplicate equal to the original, so on payloads it
is the identity. -/
def clone {V : Type} (e : V) : V := e

/-! ### Type-erasure wrapper layer (registry.rs, mod wrapper) -/

/-- Models the method `execute` of
`impl<C: Command> CommandHandlerWrapper for Box<dyn CommandHandler<C>>`:
downcast the erased box to the concrete command type (panicking with the
source's expect message if the runtime type does not match), delegate to the
real handler, and re-box the result under the identity of the concrete
`Result<C::Response, C::Error>` type. The first component records the
arguments passed to the real handler. -/
def commandWrapperExecute {V : Type} (resTid : TypeId → TypeId) (tC : TypeId)
    (h : V → Except V V) (command : Boxed V) :
    List V × Panics (Boxed (Except V V)) :=
  match command.downcast tC with
  | none => ([], .panicked "Cannot downcast command to correct type")
  | some c => ([c], .ok ⟨resTid tC, h c⟩)

/-- Models the method `execute` of
`impl<Q: Query> QueryHandlerWrapper for Box<dyn QueryHandler<Q>>`. -/
def queryWrapperExecute {V : Type} (qresTid : TypeId → TypeId) (tQ : TypeId)
    (h : V → Except V V) (query : Boxed V) :
    List V × Panics (Boxed (Except V V)) :=
  match query.downcast tQ with
  | none => ([], .panicked "Cannot downcast query to correct type")
  | some q => ([q], .ok ⟨qresTid tQ, h q⟩)

/-- Models the method `execute` of
`impl<E: Event> EventHandlerWrapper for Box<dyn EventHandler<E>>`. The
result is boxed under the identity of the uniform event-result type
`Result<(), Box<dyn Error + Send + Sync>>`. -/
def eventWrapperExecute {V : Type} (ertid : TypeId) (tE : TypeId)
    (h : V → Except V Unit) (event : Boxed V) :
    List V × Panics (Boxed (Except V Unit)) :=
  match event.downcast tE with
  | none => ([], .panicked "Cannot downcast event to correct type")
  | some e => ([e], .ok ⟨ertid, h e⟩)

/-- Models the method `handle` of
`impl<C: Command> CommandHandler<C> for Arc<dyn CommandHandlerWrapper>`
(the un-erasure direction): box the command, run the erased wrapper, and
downcast the erased result back to `Result<C::Response, C::Error>`,
panicking with the source's expect message on a mismatch. -/
def commandArcHandle {V : Type} (resTid : TypeId → TypeId) (tC : TypeId)
    (w : Boxed V → List V × Panics (Boxed (Except V V))) (command : V) :
    List V × Panics (Except V V) :=
  match w ⟨tC, command⟩ with
  | (tr, .panicked m) => (tr, .panicked m)
  | (tr, .ok resAny) =>
    match resAny.downcast (resTid tC) with
    | none => (tr, .panicked "Cannot downcast command response to correct type")
    | some r => (tr, .ok r)

/-- Models the method `handle` of
`impl<Q: Query> QueryHandler<Q> for Arc<dyn QueryHandlerWrapper>`. -/
def queryArcHandle {V : Type} (qresTid : TypeId → TypeId) (tQ : TypeId)
    (w : Boxed V → List V × Panics (Boxed (Except V V))) (query : V) :
    List V × Panics (Except V V) :=
  match w ⟨tQ, query⟩ with
  | (tr, .panicked m) => (tr, .panicked m)
  | (tr, .ok resAny) =>
    match resAny.downcast (qresTid tQ) with
    | none => (tr, .panicked "Cannot downcast query response to correct type")
    | some r => (tr, .ok r)

/-- Models the method `handle` of
`impl<E: Event> EventHandler<E> for Arc<dyn EventHandlerWrapper>`. -/
def eventArcHandle {V : Type} (ertid : TypeId) (tE : TypeId)
    (w : Boxed V → List V × Panics (Boxed (Except V Unit))) (event : V) :
    List V × Panics (Except V Unit) :=
  match w ⟨tE, event⟩ with
  | (tr, .panicked m) => (tr, .panicked m)
  | (tr, .ok resAny) =>
    match resAny.downcast ertid with
    | none => (tr, .panicked "Cannot downcast event handle result to correct type")
    | some r => (tr, .ok r)

/-! ### Registries (registry.rs) -/

/-- Models CommandHandlerRegistry: a HashMap from TypeId to the stored
erased wrapper (`Arc<dyn CommandHandlerWrapper>`), as a partial map. -/
structure CommandHandlerRegistry (V : Type) where
  handlers : TypeId → Option (Boxed V → List V × Panics (Boxed (Except V V)))

/-- Models CommandHandlerRegistry::new. -/
def CommandHandlerRegistry.new (V : Type) : CommandHandlerRegistry V :=
  ⟨fun _ => none⟩

/-- Models CommandHandlerRegistry::register::<C>(handler): erase the handler
through the wrapper layer and insert it under C's type identity, replacing
any previous entry (HashMap::insert). -/
def CommandHandlerRegistry.register {V : Type} (resTid : TypeId → TypeId)
    (r : CommandHandlerRegistry V) (tC : TypeId) (h : V → Except V V) :
    CommandHandlerRegistry V :=
  ⟨fun k => if k = tC then some (commandWrapperExecute resTid tC h) else r.handlers k⟩

/-- Models CommandHandlerRegistry::get_handler::<C>(): look up C's identity
and, when present, hand the wrapper back as a statically typed
`Box<dyn CommandHandler<C>>` through the un-erasure impl. -/
def CommandHandlerRegistry.get_handler {V : Type} (resTid : TypeId → TypeId)
    (r : CommandHandlerRegistry V) (tC : TypeId) :
    Option (V → List V × Panics (Except V V)) :=
  (r.handlers tC).map (fun w => commandArcHandle resTid tC w)

/-- Models QueryHandlerRegistry. -/
structure QueryHandlerRegistry (V : Type) where
  handlers : TypeId → Option (Boxed V → List V × Panics (Boxed (Except V V)))

/-- Models QueryHandlerRegistry::new. -/
def QueryHandlerRegistry.new (V : Type) : QueryHandlerRegistry V :=
  ⟨fun _ => none⟩

/-- Models QueryHandlerRegistry::register::<Q>(handler). -/
def QueryHandlerRegistry.register {V : Type} (qresTid : TypeId → TypeId)
    (r : QueryHandlerRegistry V) (tQ : TypeId) (h : V → Except V V) :
    QueryHandlerRegistry V :=
  ⟨fun k => if k = tQ then some (queryWrapperExecute qresTid tQ h) else r.handlers k⟩

/-- Models QueryHandlerRegistry::get_handler::<Q>(). -/
def QueryHandlerRegistry.get_handler {V : Type} (qresTid : TypeId → TypeId)
    (r : QueryHandlerRegistry V) (tQ : TypeId) :
    Option (V → List V × Panics (Except V V)) :=
  (r.handlers tQ).map (fun w => queryArcHandle qresTid tQ w)

/-- Models EventHandlerRegistry: a HashMap from TypeId to the ordered list
of stored erased wrappers (`Vec<Arc<dyn EventHandlerWrapper>>`). -/
structure EventHandlerRegistry (V : Type) where
  handlers : TypeId → Option (List (Boxed V → List V × Panics (Boxed (Except V Unit))))

/-- Models EventHandlerRegistry::new. -/
def EventHandlerRegistry.new (V : Type) : EventHandlerRegistry V :=
  ⟨fun _ => none⟩

/-- Models EventHandlerRegistry::register::<E>(handler):
`self.handlers.entry(TypeId::of::<E>()).or_default().push(wrapped)` — fetch
the list for E's identity (inserting the empty list when absent) and push
the erased handler at the end. -/
def EventHandlerRegistry.register {V : Type} (ertid : TypeId)
    (r : EventHandlerRegistry V) (tE : TypeId) (h : V → Except V Unit) :
    EventHandlerRegistry V :=
  ⟨fun k =>
    if k = tE then some ((r.handlers tE).getD [] ++ [eventWrapperExecute ertid tE h])
    else r.handlers k⟩

/-- Models EventHandlerRegistry::get_handlers::<E>(): the stored list for
E's identity (empty when absent), each wrapper handed back as a statically
typed `Arc<dyn EventHandler<E>>` through the un-erasure impl. -/
def EventHandlerRegistry.get_handlers {V : Type} (ertid : TypeId)
    (r : EventHandlerRegistry V) (tE : TypeId) :
    List (V → List V × Panics (Except V Unit)) :=
  ((r.handlers tE).getD []).map (fun w => eventArcHandle ertid tE w)

/-! ### Buses (command.rs, query.rs, event.rs) -/

/-- Models CommandBus: a facade holding (shared ownership of) a frozen
CommandHandlerRegistry. -/
structure CommandBus (V : Type) where
  registry : CommandHandlerRegistry V

/-- Models CommandBus::new. -/
def CommandBus.new {V : Type} (r : CommandHandlerRegistry V) : CommandBus V :=
  ⟨r⟩

/-- Models CommandBus::dispatch::<C>(command): look up the handler for C's
identity; when absent, panic with the source's message naming the command
type; when present, run the handler and return its result verbatim. -/
def CommandBus.dispatch {V : Type} (resTid : TypeId → TypeId) (tn : TypeId → String)
    (bus : CommandBus V) (tC : TypeId) (command : V) :
    List V × Panics (Except V V) :=
  match CommandHandlerRegistry.get_handler resTid bus.registry tC with
  | none => ([], .panicked ("No handler registered for command: " ++ rustDebugStr (tn tC)))
  | some handler => handler command

/-- Models QueryBus. -/
structure QueryBus (V : Type) where
  registry : QueryHandlerRegistry V

/-- Models QueryBus::new. -/
def QueryBus.new {V : Type} (r : QueryHandlerRegistry V) : QueryBus V :=
  ⟨r⟩

/-- Models QueryBus::dispatch::<Q>(query). -/
def QueryBus.dispatch {V : Type} (qresTid : TypeId → TypeId) (tn : TypeId → String)
    (bus : QueryBus V) (tQ : TypeId) (query : V) :
    List V × Panics (Except V V) :=
  match QueryHandlerRegistry.get_handler qresTid bus.registry tQ with
  | some handler => handler query
  | none => ([], .panicked ("No handler registered for query: " ++ rustDebugStr (tn tQ)))

/-- Models EventBus. -/
structure EventBus (V : Type) where
  registry : EventHandlerRegistry V

/-- Models EventBus::new. -/
def EventBus.new {V : Type} (r : EventHandlerRegistry V) : EventBus V :=
  ⟨r⟩

/-- The loop body of EventBus::dispatch:
`for handler in handlers { handler.handle(event.clone()).await?; }; Ok(())`.
Each iteration calls the next handler on a clone of the originally
dispatched event; an Err return short-circuits the loop via `?`, and a
panic unwinds through it. The first component collects the invocation
records of the underlying registered handlers, tagged with the zero-based
position of the handler in the list (ghost data; `i` is the position of the
first handler of `hs` in the full registered list). -/
def dispatchGo {V : Type} (hs : List (V → List V × Panics (Except V Unit)))
    (event : V) (i : Nat) : List (Nat × V) × Panics (Except V Unit) :=
  match hs with
  | [] => ([], .ok (.ok ()))
  | h :: rest =>
    match h (clone event) with
    | (tr, .panicked m) => (tr.map (fun v => (i, v)), .panicked m)
    | (tr, .ok (.error err)) => (tr.map (fun v => (i, v)), .ok (.error err))
    | (tr, .ok (.ok _)) =>
      let rest' := dispatchGo rest event (i + 1)
      (tr.map (fun v => (i, v)) ++ rest'.1, rest'.2)

/-- Models EventBus::dispatch::<E>(event): fetch the registered handlers for
E's identity (possibly the empty list) and run them sequentially in order. -/
def EventBus.dispatch {V : Type} (ertid : TypeId) (bus : EventBus V)
    (tE : TypeId) (event : V) : List (Nat × V) × Panics (Except V Unit) :=
  dispatchGo (EventHandlerRegistry.get_handlers ertid bus.registry tE) event 0

/-- A sequence of EventHandlerRegistry::register calls for the same event
type, in list order (left fold of register). -/
def registerAll {V : Type} (ertid : TypeId) (r : EventHandlerRegistry V)
    (tE : TypeId) (hs : List (V → Except V Unit)) : EventHandlerRegistry V :=
  hs.foldl (fun acc h => EventHandlerRegistry.register ertid acc tE h) r

/-! ### Helper lemmas -/

/-- The stored wrapper list for an event type after a sequence of register
calls is the previously stored list followed by the wrappers of the new
handlers, in registration order. -/
theorem registerAll_stored {V : Type} (ertid : TypeId) (tE : TypeId)
    (hs : List (V → Except V Unit)) (r : EventHandlerRegistry V) :
    ((registerAll ertid r tE hs).handlers tE).getD []
      = (r.handlers tE).getD [] ++ hs.map (fun h => eventWrapperExecute ertid tE h) := by
  induction hs generalizing r with
  | nil => simp [registerAll]
  | cons h t ih =>
    have hstep : registerAll ertid r tE (h :: t)
        = registerAll ertid (EventHandlerRegistry.register ertid r tE h) tE t := rfl
    rw [hstep, ih]
    simp [EventHandlerRegistry.register]

/-- Erasing an event handler through the wrapper and handing it back
through the un-erasure impl yields a function that records one invocation
with its argument and returns the handler's result. -/
theorem eventArcHandle_of_wrapper {V : Type} (ertid : TypeId) (tE : TypeId)
    (h : V → Except V Unit) :
    eventArcHandle ertid tE (eventWrapperExecute ertid tE h)
      = fun v => ([v], Panics.ok (h v)) := by
  funext v
  simp [eventArcHandle, eventWrapperExecute, Boxed.downcast]

/-- The un-erased handler list obtained from a fresh registry after a
sequence of register calls for one event type. -/
theorem get_handlers_registerAll_new {V : Type} (ertid : TypeId) (tE : TypeId)
    (hs : List (V → Except V Unit)) :
    EventHandlerRegistry.get_handlers ertid
        (registerAll ertid (EventHandlerRegistry.new V) tE hs) tE
      = hs.map (fun h v => ([v], Panics.ok (h v))) := by
  unfold EventHandlerRegistry.get_handlers
  rw [registerAll_stored]
  have hfn : (fun h => eventArcHandle ertid tE (eventWrapperExecute ertid tE h))
      = (fun (h : V → Except V Unit) v => ([v], Panics.ok (h v))) := by
    funext h
    exact eventArcHandle_of_wrapper ertid tE h
  simp [EventHandlerRegistry.new, Function.comp_def, hfn]

/-- The dispatch loop over un-erased registered handlers, when every
handler succeeds on the event: every handler is invoked exactly once, in
list order, with the event value, and the loop returns Ok. -/
theorem dispatchGo_all_ok {V : Type} (e : V) (hs : List (V → Except V Unit))
    (i : Nat) (hok : ∀ h ∈ hs, h e = .ok ()) :
    dispatchGo (hs.map (fun h v => ([v], Panics.ok (h v)))) e i
      = ((List.range' i hs.length).map (fun k => (k, e)), .ok (.ok ())) := by
  induction hs generalizing i with
  | nil => simp [dispatchGo]
  | cons h t ih =>
    have he : h e = .ok () := hok h (by simp)
    have ht : ∀ g ∈ t, g e = .ok () := fun g hg => hok g (by simp [hg])
    simp [dispatchGo, clone, he, ih (i + 1) ht, List.range']

/-- The dispatch loop over un-erased registered handlers, when an initial
segment succeeds and the next handler fails: the successful handlers and
the failing one are each invoked exactly once, in order, with the event
value; no later handler is invoked; and the loop returns the failing
handler's error. -/
theorem dispatchGo_prefix_error {V : Type} (e : V)
    (pre post : List (V → Except V Unit)) (hb : V → Except V Unit) (err : V)
    (i : Nat) (hok : ∀ h ∈ pre, h e = .ok ()) (hbad : hb e = .error err) :
    dispatchGo ((pre ++ hb :: post).map (fun h v => ([v], Panics.ok (h v)))) e i
      = ((List.range' i (pre.length + 1)).map (fun k => (k, e)), .ok (.error err)) := by
  induction pre generalizing i with
  | nil => simp [dispatchGo, clone, hbad, List.range']
  | cons h t ih =>
    have he : h e = .ok () := hok h (by simp)
    have ht : ∀ g ∈ t, g e = .ok () := fun g hg => hok g (by simp [hg])
    have hrec := ih (i + 1) ht
    simp only [List.map_append, List.map_cons] at hrec
    simp [dispatchGo, clone, he, hrec, List.range']

/-- Every invocation record produced by the dispatch loop over un-erased
registered handlers carries the dispatched event value itself. -/
theorem dispatchGo_args_eq_event {V : Type} (e : V)
    (hs : List (V → Except V Unit)) (i : Nat) :
    ∀ p ∈ (dispatchGo (hs.map (fun h v => ([v], Panics.ok (h v)))) e i).1,
      p.2 = e := by
  induction hs generalizing i with
  | nil => simp [dispatchGo]
  | cons h t ih =>
    intro p hp
    simp only [List.map_cons, dispatchGo, clone] at hp
    cases hres : h e with
    | ok u =>
      rw [hres] at hp
      simp only [List.map_cons, List.map_nil, List.singleton_append,
        List.mem_cons] at hp
      rcases hp with rfl | hp
      · rfl
      · exact ih (i + 1) p hp
    | error err =>
      rw [hres] at hp
      simp only [List.map_cons, List.map_nil, List.mem_singleton] at hp
      subst hp
      rfl

/-! ### Theorems -/

/-- C1: with exactly one handler registered for a command type, dispatch
invokes that handler's handle exactly once with the dispatched value (the
invocation trace is the single record of that value) and returns the
handler's Result verbatim, never panicking; symmetrically for a query type.
The erase/un-erase round trip through the registry wrapper is the identity
on both the message and the result. -/
theorem dispatch_registered_invokes_once_returns_verbatim
    {V : Type} (resTid qresTid : TypeId → TypeId) (tn : TypeId → String)
    (rc : CommandHandlerRegistry V) (rq : QueryHandlerRegistry V)
    (tC tQ : TypeId) (hc hq : V → Except V V) (c q : V) :
    CommandBus.dispatch resTid tn
        (CommandBus.new (CommandHandlerRegistry.register resTid rc tC hc)) tC c
      = ([c], .ok (hc c))
    ∧ QueryBus.dispatch qresTid tn
        (QueryBus.new (QueryHandlerRegistry.register qresTid rq tQ hq)) tQ q
      = ([q], .ok (hq q)) := by
  constructor <;>
    simp [CommandBus.dispatch, QueryBus.dispatch, CommandBus.new, QueryBus.new,
      CommandHandlerRegistry.get_handler, QueryHandlerRegistry.get_handler,
      CommandHandlerRegistry.register, QueryHandlerRegistry.register,
      commandArcHandle, queryArcHandle, commandWrapperExecute, queryWrapperExecute,
      Boxed.downcast]

/-- C4: dispatching a command (or query) whose type has no registered
handler panics with the source's diagnostic naming the missing message
type, deterministically; no handler is invoked and no normal Ok or Err
value is produced. -/
theorem dispatch_missing_handler_panics
    {V : Type} (resTid qresTid : TypeId → TypeId) (tn : TypeId → String)
    (rc : CommandHandlerRegistry V) (rq : QueryHandlerRegistry V)
    (tC tQ : TypeId) (c q : V)
    (hcnone : rc.handlers tC = none) (hqnone : rq.handlers tQ = none) :
    CommandBus.dispatch resTid tn (CommandBus.new rc) tC c
      = ([], .panicked ("No handler registered for command: " ++ rustDebugStr (tn tC)))
    ∧ QueryBus.dispatch qresTid tn (QueryBus.new rq) tQ q
      = ([], .panicked ("No handler registered for query: " ++ rustDebugStr (tn tQ))) := by
  constructor <;>
    simp [CommandBus.dispatch, QueryBus.dispatch, CommandBus.new, QueryBus.new,
      CommandHandlerRegistry.get_handler, QueryHandlerRegistry.get_handler,
      hcnone, hqnone]

/-- Witness for C4: on a freshly created (empty) registry pair, dispatching
command type 0 and query type 0 panics with the missing-handler message. -/
theorem dispatch_missing_handler_panics_witness :
    CommandBus.dispatch (V := Nat) (fun t => t + 100) (fun _ => "demo::TestCommand")
        (CommandBus.new (CommandHandlerRegistry.new Nat)) 0 7
      = ([], .panicked ("No handler registered for command: " ++ rustDebugStr "demo::TestCommand"))
    ∧ QueryBus.dispatch (V := Nat) (fun t => t + 100) (fun _ => "demo::TestCommand")
        (QueryBus.new (QueryHandlerRegistry.new Nat)) 0 7
      = ([], .panicked ("No handler registered for query: " ++ rustDebugStr "demo::TestCommand")) :=
  dispatch_missing_handler_panics (fun t => t + 100) (fun t => t + 100)
    (fun _ => "demo::TestCommand") (CommandHandlerRegistry.new Nat)
    (QueryHandlerRegistry.new Nat) 0 0 7 7 rfl rfl

/-- C5: registering h1 then h2 for the same command (or query) type leaves
the registry in exactly the state of registering h2 alone (h1 is gone, no
merge, register always succeeds), and a subsequent dispatch uses h2. -/
theorem register_same_type_last_write_wins
    {V : Type} (resTid qresTid : TypeId → TypeId) (tn : TypeId → String)
    (rc : CommandHandlerRegistry V) (rq : QueryHandlerRegistry V)
    (tC tQ : TypeId) (hc1 hc2 hq1 hq2 : V → Except V V) (c q : V) :
    CommandHandlerRegistry.register resTid
        (CommandHandlerRegistry.register resTid rc tC hc1) tC hc2
      = CommandHandlerRegistry.register resTid rc tC hc2
    ∧ CommandBus.dispatch resTid tn
        (CommandBus.new (CommandHandlerRegistry.register resTid
          (CommandHandlerRegistry.register resTid rc tC hc1) tC hc2)) tC c
      = ([c], .ok (hc2 c))
    ∧ QueryHandlerRegistry.register qresTid
        (QueryHandlerRegistry.register qresTid rq tQ hq1) tQ hq2
      = QueryHandlerRegistry.register qresTid rq tQ hq2
    ∧ QueryBus.dispatch qresTid tn
        (QueryBus.new (QueryHandlerRegistry.register qresTid
          (QueryHandlerRegistry.register qresTid rq tQ hq1) tQ hq2)) tQ q
      = ([q], .ok (hq2 q)) := by
  refine ⟨?_, ?_, ?_, ?_⟩
  · apply congrArg CommandHandlerRegistry.mk
    funext k
    by_cases hk : k = tC <;> simp [CommandHandlerRegistry.register, hk]
  · simp [CommandBus.dispatch, CommandBus.new, CommandHandlerRegistry.get_handler,
      CommandHandlerRegistry.register, commandArcHandle, commandWrapperExecute,
      Boxed.downcast]
  · apply congrArg QueryHandlerRegistry.mk
    funext k
    by_cases hk : k = tQ <;> simp [QueryHandlerRegistry.register, hk]
  · simp [QueryBus.dispatch, QueryBus.new, QueryHandlerRegistry.get_handler,
      QueryHandlerRegistry.register, queryArcHandle, queryWrapperExecute,
      Boxed.downcast]

/-- C9: the type-erasure wrapper's execute downcasts successfully and runs
the real handler exactly when the boxed input's runtime type identity
matches the concrete type the wrapper was built for; on a mismatch it
panics with the source's expect message without invoking the handler, and
never returns a coerced or defaulted value (shown for the command wrapper
and the event wrapper). -/
theorem wrapperExecute_matches_iff_tid_eq
    {V : Type} (resTid : TypeId → TypeId) (ertid : TypeId) (tC tE : TypeId)
    (hc : V → Except V V) (he : V → Except V Unit) (a b : Boxed V) :
    commandWrapperExecute resTid tC hc a
      = (if a.tid = tC then ([a.val], .ok ⟨resTid tC, hc a.val⟩)
         else ([], .panicked "Cannot downcast command to correct type"))
    ∧ eventWrapperExecute ertid tE he b
      = (if b.tid = tE then ([b.val], .ok ⟨ertid, he b.val⟩)
         else ([], .panicked "Cannot downcast event to correct type")) := by
  constructor
  · by_cases h : a.tid = tC <;> simp [commandWrapperExecute, Boxed.downcast, h]
  · by_cases h : b.tid = tE <;> simp [eventWrapperExecute, Boxed.downcast, h]

/-- C10: registering a handler for one message type leaves every other
type's entry untouched, in all three registries: lookups for any distinct
type identity are unchanged by the register call. -/
theorem register_frame_other_types_unchanged
    {V : Type} (resTid qresTid : TypeId → TypeId) (ertid : TypeId)
    (rc : CommandHandlerRegistry V) (rq : QueryHandlerRegistry V)
    (re : EventHandlerRegistry V) (tC tC2 tQ tQ2 tE tE2 : TypeId)
    (hc : V → Except V V) (hq : V → Except V V) (he : V → Except V Unit)
    (hC : tC2 ≠ tC) (hQ : tQ2 ≠ tQ) (hE : tE2 ≠ tE) :
    CommandHandlerRegistry.get_handler resTid
        (CommandHandlerRegistry.register resTid rc tC hc) tC2
      = CommandHandlerRegistry.get_handler resTid rc tC2
    ∧ QueryHandlerRegistry.get_handler qresTid
        (QueryHandlerRegistry.register qresTid rq tQ hq) tQ2
      = QueryHandlerRegistry.get_handler qresTid rq tQ2
    ∧ EventHandlerRegistry.get_handlers ertid
        (EventHandlerRegistry.register ertid re tE he) tE2
      = EventHandlerRegistry.get_handlers ertid re tE2 := by
  refine ⟨?_, ?_, ?_⟩
  · simp [CommandHandlerRegistry.get_handler, CommandHandlerRegistry.register, hC]
  · simp [QueryHandlerRegistry.get_handler, QueryHandlerRegistry.register, hQ]
  · simp [EventHandlerRegistry.get_handlers, EventHandlerRegistry.register, hE]

/-- Witness for C10: with concrete distinct type identities 1 and 0, the
lookups at identity 1 are unchanged by a register call at identity 0 in all
three registries. -/
theorem register_frame_other_types_unchanged_witness :
    CommandHandlerRegistry.get_handler (V := Nat) (fun t => t + 100)
        (CommandHandlerRegistry.register (fun t => t + 100)
          (CommandHandlerRegistry.new Nat) 0 (fun v => .ok v)) 1
      = CommandHandlerRegistry.get_handler (fun t => t + 100)
          (CommandHandlerRegistry.new Nat) 1
    ∧ QueryHandlerRegistry.get_handler (V := Nat) (fun t => t + 200)
        (QueryHandlerRegistry.register (fun t => t + 200)
          (QueryHandlerRegistry.new Nat) 0 (fun v => .ok v)) 1
      = QueryHandlerRegistry.get_handler (fun t => t + 200)
          (QueryHandlerRegistry.new Nat) 1
    ∧ EventHandlerRegistry.get_handlers (V := Nat) 50
        (EventHandlerRegistry.register 50
          (EventHandlerRegistry.new Nat) 0 (fun _ => .ok ())) 1
      = EventHandlerRegistry.get_handlers 50 (EventHandlerRegistry.new Nat) 1 :=
  register_frame_other_types_unchanged (fun t => t + 100) (fun t => t + 200) 50
    (CommandHandlerRegistry.new Nat) (QueryHandlerRegistry.new Nat)
    (EventHandlerRegistry.new Nat) 0 1 0 1 0 1
    (fun v => .ok v) (fun v => .ok v) (fun _ => .ok ())
    (by decide) (by decide) (by decide)

/-- C2: registering handlers h1..hN for one event type in that order and
dispatching an event on which every handler succeeds invokes each handler
exactly once, strictly in registration order (the invocation trace is
exactly one record per position 0..N-1, in increasing position order, each
carrying the event), and dispatch returns Ok. -/
theorem event_dispatch_all_ok_in_registration_order
    {V : Type} (ertid tE : TypeId) (hs : List (V → Except V Unit)) (e : V)
    (hok : ∀ h ∈ hs, h e = .ok ()) :
    EventBus.dispatch ertid
        (EventBus.new (registerAll ertid (EventHandlerRegistry.new V) tE hs)) tE e
      = ((List.range hs.length).map (fun k => (k, e)), .ok (.ok ())) := by
  unfold EventBus.dispatch EventBus.new
  rw [get_handlers_registerAll_new, dispatchGo_all_ok e hs 0 hok,
    List.range_eq_range']

/-- Witness for C2: two always-succeeding handlers registered for event
type 0; dispatching the event 5 invokes handler 0 then handler 1, each once
with 5, and returns Ok. -/
theorem event_dispatch_all_ok_in_registration_order_witness :
    EventBus.dispatch (V := Nat) 99
        (EventBus.new (registerAll 99 (EventHandlerRegistry.new Nat) 0
          [fun _ => .ok (), fun _ => .ok ()])) 0 5
      = ([(0, 5), (1, 5)], .ok (.ok ())) :=
  event_dispatch_all_ok_in_registration_order 99 0
    [fun _ => .ok (), fun _ => .ok ()] 5
    (by
      intro h hh
      simp only [List.mem_cons, List.not_mem_nil, or_false] at hh
      rcases hh with rfl | rfl <;> rfl)

/-- C3: if the handlers registered for an event type are a prefix that
succeeds on the event, then a failing handler, then any suffix, dispatch
invokes each prefix handler exactly once in order, invokes the failing
handler exactly once (the trace is exactly positions 0..pre.length, each
once, in order, with the event), never invokes any later handler, and
returns that same error value. -/
theorem event_dispatch_short_circuits_on_first_error
    {V : Type} (ertid tE : TypeId) (pre post : List (V → Except V Unit))
    (hb : V → Except V Unit) (err : V) (e : V)
    (hok : ∀ h ∈ pre, h e = .ok ()) (hbad : hb e = .error err) :
    EventBus.dispatch ertid
        (EventBus.new (registerAll ertid (EventHandlerRegistry.new V) tE
          (pre ++ hb :: post))) tE e
      = ((List.range (pre.length + 1)).map (fun k => (k, e)), .ok (.error err)) := by
  unfold EventBus.dispatch EventBus.new
  rw [get_handlers_registerAll_new, dispatchGo_prefix_error e pre post hb err 0 hok hbad,
    List.range_eq_range']

/-- Witness for C3: three handlers registered for event type 0, of which
the second fails with error 7 on the event 5: handlers at positions 0 and 1
run once each in order, the third is never invoked, and dispatch returns
error 7. -/
theorem event_dispatch_short_circuits_on_first_error_witness :
    EventBus.dispatch (V := Nat) 99
        (EventBus.new (registerAll 99 (EventHandlerRegistry.new Nat) 0
          ([fun _ => .ok ()] ++ (fun _ => .error 7) :: [fun _ => .ok ()]))) 0 5
      = ([(0, 5), (1, 5)], .ok (.error 7)) :=
  event_dispatch_short_circuits_on_first_error 99 0
    [fun _ => .ok ()] [fun _ => .ok ()] (fun _ => .error 7) 7 5
    (by
      intro h hh
      simp only [List.mem_singleton] at hh
      subst hh
      rfl) rfl

/-- C6: for an event type with no stored entry, get_handlers returns the
empty list (it is list-valued, never an absent or error result), and
dispatch of any event of that type returns Ok without invoking any handler
(the invocation trace is empty). -/
theorem event_dispatch_no_handlers_vacuous_success
    {V : Type} (ertid tE : TypeId) (r : EventHandlerRegistry V) (e : V)
    (hnone : r.handlers tE = none) :
    EventHandlerRegistry.get_handlers ertid r tE = []
    ∧ EventBus.dispatch ertid (EventBus.new r) tE e = ([], .ok (.ok ())) := by
  have hempty : EventHandlerRegistry.get_handlers ertid r tE = [] := by
    simp [EventHandlerRegistry.get_handlers, hnone]
  exact ⟨hempty, by simp [EventBus.dispatch, EventBus.new, hempty, dispatchGo]⟩

/-- Witness for C6: on a freshly created event registry, get_handlers for
type 0 is empty and dispatching the event 5 succeeds with an empty trace. -/
theorem event_dispatch_no_handlers_vacuous_success_witness :
    EventHandlerRegistry.get_handlers (V := Nat) 99 (EventHandlerRegistry.new Nat) 0 = []
    ∧ EventBus.dispatch (V := Nat) 99 (EventBus.new (EventHandlerRegistry.new Nat)) 0 5
      = ([], .ok (.ok ())) :=
  event_dispatch_no_handlers_vacuous_success 99 0 (EventHandlerRegistry.new Nat) 5 rfl

/-- C7: every handler invoked during an event dispatch receives a clone of
the originally dispatched event value itself — every record in the
invocation trace carries the original event, never a value derived from an
earlier handler — for any registered handlers and any outcome. -/
theorem event_handlers_receive_original_event
    {V : Type} (ertid tE : TypeId) (hs : List (V → Except V Unit)) (e : V)
    (p : Nat × V)
    (hp : p ∈ (EventBus.dispatch ertid
        (EventBus.new (registerAll ertid (EventHandlerRegistry.new V) tE hs)) tE e).1) :
    p.2 = clone e := by
  rw [show clone e = e from rfl]
  apply dispatchGo_args_eq_event e hs 0 p
  rw [← get_handlers_registerAll_new ertid tE hs]
  exact hp

/-- Witness for C7: with two registered handlers (one of which fails), the
record (1, 5) appears in the trace of dispatching the event 5, and its
delivered value is the original event 5. -/
theorem event_handlers_receive_original_event_witness :
    (1, 5) ∈ (EventBus.dispatch (V := Nat) 99
        (EventBus.new (registerAll 99 (EventHandlerRegistry.new Nat) 0
          [fun _ => .ok (), fun _ => .error 7])) 0 5).1
    ∧ ((1, 5) : Nat × Nat).2 = clone 5 :=
  ⟨by decide,
   event_handlers_receive_original_event 99 0
     [fun _ => .ok (), fun _ => .error 7] 5 (1, 5) (by decide)⟩

/-- C8: each event register call stores, for the registered type, exactly
the previously stored wrapper list with one new wrapper appended at the
end; all previously registered handlers stay in place and in order. -/
theorem event_register_appends_one_wrapper
    {V : Type} (ertid : TypeId) (r : EventHandlerRegistry V) (tE : TypeId)
    (h : V → Except V Unit) :
    (EventHandlerRegistry.register ertid r tE h).handlers tE
      = some ((r.handlers tE).getD [] ++ [eventWrapperExecute ertid tE h]) := by
  simp [EventHandlerRegistry.register]

end Qonduit
